import Mathlib

/-!
Shallow embedding of the persistence and order-book handling code of the
cryptofeed fork: `cryptofeed/util/dumper.py`, `cryptofeed/backends/parquet.py`,
and the book-message handlers of `cryptofeed/exchanges/bybit.py` and
`cryptofeed/exchanges/serum.py`.

Modelling conventions:
* Python `float` values and `Decimal` values are modelled by exact rationals;
  binary floating-point rounding is not modelled.  All concrete inputs used in
  the theorems stay within the regime where the two agree.
* Python exceptions are modelled by `Except` with an explicit error alphabet.
* The filesystem touched by the dumper is an explicit association list from
  path strings to modelled parquet files.
-/

namespace Cryptofeed

/-- Python runtime values appearing in the flat record dictionaries handed to
`Dumper.dump`.  `PyVal.none` models Python `None`.  Python `bool` is not a
`PyVal.int` here because the source discriminates with `type(value) == int`,
which is false for `True`/`False`. -/
inductive PyVal where
  | int (n : ℤ)
  | float (q : ℚ)
  | bool (b : Bool)
  | str (s : String)
  | none
deriving DecidableEq, Repr

/-- Error alphabet for the modelled Python exceptions raised by the dumper and
its libraries.  `typeError` is the `TypeError('Unknown data type', ...)` raised
by `Dumper.dump` (the spec's `SchemaError`); `attributeError` models attribute
access on `None`; `arrowInvalid` models pyarrow rejecting data that does not
match a schema; `ioError` models unreadable files. -/
inductive DumpError where
  | typeError
  | keyError
  | attributeError
  | ioError
  | arrowInvalid
deriving DecidableEq, Repr

/-- Numeric value of one decimal digit character. -/
def digitVal (c : Char) : ℕ := c.toNat - '0'.toNat

/-- Value of a list of decimal digit characters. -/
def digitsVal (cs : List Char) : ℕ := cs.foldl (fun acc c => 10 * acc + digitVal c) 0

/-- Hexadecimal digit test, as accepted by Python `int(val, 16)`. -/
def isHexDigitChar (c : Char) : Bool :=
  c.isDigit || ('a' ≤ c && c ≤ 'f') || ('A' ≤ c && c ≤ 'F')

/-- Modelled Python `float(s)` literal parser used by `Dumper._is_float` and
`Dumper._is_int`: optional sign, decimal digits with an optional fraction part,
and an optional exponent.  Returns the exact rational value of the literal.
Not modelled: `inf`/`nan` literals, `_` digit separators, and surrounding
whitespace; no concrete input in this file uses those forms. -/
def parseFloatChars (cs : List Char) : Option ℚ :=
  let (sgn, cs) :=
    match cs with
    | '+' :: r => ((1 : ℚ), r)
    | '-' :: r => ((-1 : ℚ), r)
    | r => ((1 : ℚ), r)
  let (ip, cs) := cs.span Char.isDigit
  let (fp, cs) :=
    match cs with
    | '.' :: r => r.span Char.isDigit
    | r => (([] : List Char), r)
  if ip.isEmpty && fp.isEmpty then Option.none
  else
    let mant : ℚ := (digitsVal ip : ℚ) + (digitsVal fp : ℚ) / ((10 : ℚ) ^ fp.length)
    match cs with
    | [] => Option.some (sgn * mant)
    | 'e' :: r | 'E' :: r =>
      let (esgn, r) :=
        match r with
        | '+' :: r2 => ((1 : ℤ), r2)
        | '-' :: r2 => ((-1 : ℤ), r2)
        | r2 => ((1 : ℤ), r2)
      let (ed, r) := r.span Char.isDigit
      if ed.isEmpty || !r.isEmpty then Option.none
      else Option.some (sgn * mant * (10 : ℚ) ^ (esgn * (digitsVal ed : ℤ)))
    | _ => Option.none

/-- Models `Dumper._is_float`: `float(val)` succeeds. -/
def isFloatStr (s : String) : Bool := (parseFloatChars s.toList).isSome

/-- Models `Dumper._is_int`: `float(val)` succeeds and equals its integer part,
i.e. the string is a numeric literal with integral value. -/
def isIntStr (s : String) : Bool :=
  match parseFloatChars s.toList with
  | Option.some q => q.den == 1
  | Option.none => false

/-- Acceptance of Python `int(val, 16)` (optional sign, one or more hex
digits; the `0x` allowance of Python is not modelled, no input here uses it). -/
def parseHexChars (cs : List Char) : Bool :=
  let cs :=
    match cs with
    | '+' :: r => r
    | '-' :: r => r
    | r => r
  !cs.isEmpty && cs.all isHexDigitChar

/-- Models `Dumper._is_hex`: length at least 8 and `int(val, 16)` succeeds. -/
def isHexStr (s : String) : Bool := s.length ≥ 8 && parseHexChars s.toList

/-- Python `int()` applied to a numeric value truncates toward zero. -/
def pyInt (q : ℚ) : ℤ := Int.tdiv q.num (q.den : ℤ)

/-- Exact value behind a numeric string (used by the write-time coercion in
`Dumper.dump` line 83, `value = float(value)`). -/
def pyFloatOf (s : String) : ℚ := (parseFloatChars s.toList).getD 0

/-- pyarrow column types produced by the schema inference of `Dumper.dump`. -/
inductive PaType where
  | int64
  | float64
  | bool_
  | string
  | binary (n : ℕ)
deriving DecidableEq, Repr

/-- A pyarrow schema: named, typed fields plus string metadata. -/
structure Schema where
  fields : List (String × PaType)
  metadata : List (String × String)
deriving DecidableEq, Repr

/-- Schema inference for one value, translated from `Dumper.dump` lines 59-76.
The source's two `int` branches (`value < 1e9` and otherwise) both yield
`pa.int64()` and are merged.  For strings the source tries `_is_int`, then
`_is_hex` (giving a fixed-width binary of the string's length), then
`_is_float`, then falls back to `pa.string()`.  Any other value raises
`TypeError('Unknown data type', ...)`. -/
def inferType : PyVal → Except DumpError PaType
  | PyVal.int _ => Except.ok PaType.int64
  | PyVal.float _ => Except.ok PaType.float64
  | PyVal.str s =>
    if isIntStr s then Except.ok PaType.int64
    else if isHexStr s then Except.ok (PaType.binary s.length)
    else if isFloatStr s then Except.ok PaType.float64
    else Except.ok PaType.string
  | PyVal.bool _ => Except.ok PaType.bool_
  | PyVal.none => Except.error DumpError.typeError

/-- One record passed to `Dumper.dump`: an insertion-ordered dict. -/
abbrev Row := List (String × PyVal)

/-- The in-memory buffer `Dumper._column_data`: an insertion-ordered dict from
column name to the list of buffered values of that column. -/
abbrev ColumnData := List (String × List PyVal)

/-- Schema inference over a whole first record (the loop of `Dumper.dump`
lines 56-78).  The partial mutation of `_column_data` that the source performs
before a mid-loop `TypeError` is not tracked: the error is fatal for the
partition. -/
def inferSchema (msg : Row) : Except DumpError Schema :=
  match msg.mapM (fun p => (inferType p.2).map (fun t => (p.1, t))) with
  | Except.error e => Except.error e
  | Except.ok fields => Except.ok { fields := fields, metadata := [] }

/-- Write-time coercion of `Dumper.dump` lines 82-83: a string that parses as a
float is replaced by its numeric value before buffering. -/
def coerceValue : PyVal → PyVal
  | PyVal.str s => if isFloatStr s then PyVal.float (pyFloatOf s) else PyVal.str s
  | v => v

/-- Models `self._column_data[key].append(value)`: `KeyError` when the record
has a key the buffer does not know. -/
def columnAppend (cd : ColumnData) (k : String) (v : PyVal) : Except DumpError ColumnData :=
  if cd.any (fun c => c.1 == k) then
    Except.ok (cd.map (fun c => if c.1 == k then (c.1, c.2 ++ [v]) else c))
  else Except.error DumpError.keyError

/-- The append loop of `Dumper.dump` lines 81-84. -/
def appendRow (cd : ColumnData) (msg : Row) : Except DumpError ColumnData :=
  msg.foldlM (fun cd p => columnAppend cd p.1 (coerceValue p.2)) cd

/-- Conversion acceptance of `pa.Table.from_pydict` for one value against one
column type (modelled pyarrow semantics): ints fit `int64` within its range,
integral floats are safely cast to `int64`, ints widen to `float64`, strings
of the right length fit fixed-width binary. -/
def fits : PyVal → PaType → Bool
  | PyVal.int n, PaType.int64 => decide (-(2 : ℤ) ^ 63 ≤ n) && decide (n < (2 : ℤ) ^ 63)
  | PyVal.int _, PaType.float64 => true
  | PyVal.float q, PaType.int64 =>
    q.den == 1 && decide (-(2 : ℤ) ^ 63 ≤ q.num) && decide (q.num < (2 : ℤ) ^ 63)
  | PyVal.float _, PaType.float64 => true
  | PyVal.bool _, PaType.bool_ => true
  | PyVal.str _, PaType.string => true
  | PyVal.str s, PaType.binary n => s.length == n
  | _, _ => false

/-- A pyarrow table: a schema plus column data of equal lengths. -/
structure PTable where
  schema : Schema
  columns : ColumnData
deriving DecidableEq, Repr

/-- Validity check behind `pa.Table.from_pydict(self._column_data, schema = self._schema)`:
the column names must be exactly the schema's field names, the columns must
have equal lengths, and every value must be convertible to its column type. -/
def columnsMatch (cd : ColumnData) (σ : Schema) : Bool :=
  cd.map (fun c => c.1) == σ.fields.map (fun f => f.1)
  && (match cd with
      | [] => true
      | c0 :: rest => rest.all (fun c => c.2.length == c0.2.length))
  && (cd.zip σ.fields).all (fun p => p.1.2.all (fun v => fits v p.2.2))

/-- Models `pa.Table.from_pydict` (`Dumper._flush` line 182): raises
`pa.lib.ArrowInvalid` when the buffered data does not fit the schema. -/
def fromPydict (cd : ColumnData) (σ : Schema) : Except DumpError PTable :=
  if columnsMatch cd σ then Except.ok { schema := σ, columns := cd }
  else Except.error DumpError.arrowInvalid

/-- Modelled `Table.nbytes` (only ever fed into a page-size heuristic). -/
def nbytes (t : PTable) : ℕ := 8 * t.columns.foldl (fun a c => a + c.2.length) 0

/-- A parquet file on disk: its schema (with metadata), the row groups written
so far, whether the writer was closed (an unfinished parquet file is not
readable), and a corruption flag used to model read failures. -/
structure PFile where
  schema : Schema
  rowGroups : List ColumnData
  finished : Bool
  corrupt : Bool
deriving DecidableEq, Repr

/-- The filesystem the dumper touches: path to file, association list. -/
abbrev FS := List (String × PFile)

def fsLookup : FS → String → Option PFile
  | [], _ => Option.none
  | (m, g) :: r, n => if m == n then Option.some g else fsLookup r n

def fsSet : FS → String → PFile → FS
  | [], n, f => [(n, f)]
  | (m, g) :: r, n, f => if m == n then (m, f) :: r else (m, g) :: fsSet r n f

def fsRemove : FS → String → FS
  | [], _ => []
  | (m, g) :: r, n => if m == n then r else (m, g) :: fsRemove r n

/-- Models `os.rename` (which succeeds in the scenarios considered here). -/
def fsRename (fs : FS) (src dst : String) : FS :=
  match fsLookup fs src with
  | Option.some f => fsSet (fsRemove fs src) dst f
  | Option.none => fs

/-- Models `pq.ParquetFile(name)` followed by use of the handle: fails on a
missing, unfinished or corrupt file. -/
def pfOpen (fs : FS) (name : String) : Except DumpError PFile :=
  match fsLookup fs name with
  | Option.none => Except.error DumpError.ioError
  | Option.some f =>
    if f.corrupt || !f.finished then Except.error DumpError.ioError else Except.ok f

/-- Models `ParquetFile.read_row_group(i)`. -/
def readRowGroup (f : PFile) (i : ℕ) : Except DumpError PTable :=
  match f.rowGroups.get? i with
  | Option.some g => Except.ok { schema := f.schema, columns := g }
  | Option.none => Except.error DumpError.ioError

/-- An open `pq.ParquetWriter`: target path and the schema it was opened with. -/
structure Writer where
  fileName : String
  schema : Schema
deriving DecidableEq, Repr

/-- Creating a `pq.ParquetWriter` truncates/creates the target file. -/
def writerCreate (fs : FS) (name : String) (σ : Schema) : FS :=
  fsSet fs name { schema := σ, rowGroups := [], finished := false, corrupt := false }

/-- Models `ParquetWriter.write_table`: appends one row group; pyarrow raises
when the table's fields differ from the writer's (metadata is not compared). -/
def writeTable (fs : FS) (w : Writer) (t : PTable) : Except DumpError FS :=
  match fsLookup fs w.fileName with
  | Option.none => Except.error DumpError.ioError
  | Option.some f =>
    if t.schema.fields == w.schema.fields then
      Except.ok (fsSet fs w.fileName { f with rowGroups := f.rowGroups ++ [t.columns] })
    else Except.error DumpError.arrowInvalid

/-- Models `ParquetWriter.close`: finalizes the file (idempotent). -/
def writerClose (fs : FS) (w : Writer) : FS :=
  match fsLookup fs w.fileName with
  | Option.some f => fsSet fs w.fileName { f with finished := true }
  | Option.none => fs

/-- State of one `Dumper` instance (`cryptofeed/util/dumper.py`), field names
following the source attributes, plus the modelled filesystem and a counter of
logged warnings.  The buffer lock is not modelled: all claims concern the
sequential behaviour the lock serializes. -/
structure DumperState where
  path : String
  symbol : String
  event_type : String
  exchange : String
  buffer_max_len : ℕ
  store : Option Writer
  store_date : String
  column_data : ColumnData
  schema : Option Schema
  buffer_position : ℕ
  terminating : Bool
  fs : FS
  warnings : ℕ
deriving DecidableEq, Repr

/-- `Dumper.__init__`.  `today` stands for `datetime.date.today()` at
construction time; the calendar is external input to the model. -/
def mkDumper (path symbol event_type exchange : String) (buffer_len : ℕ)
    (today : String) (fs : FS) : DumperState :=
  { path := path, symbol := symbol, event_type := event_type, exchange := exchange,
    buffer_max_len := buffer_len, store := Option.none, store_date := today,
    column_data := [], schema := Option.none, buffer_position := 0,
    terminating := false, fs := fs, warnings := 0 }

/-- Partition directory built in `Dumper._reopen` line 105. -/
def todayDir (st : DumperState) : String :=
  "data/" ++ st.event_type ++ "/exchange=" ++ st.exchange ++ "/symbol=" ++ st.symbol
    ++ "/dt=" ++ st.store_date

/-- Partition file path built in `Dumper._reopen` line 106. -/
def todayFileName (st : DumperState) : String := todayDir st ++ "/1.snappy.parquet"

/-- Metadata merge of Python `{**(schema.metadata or {}), **custom_metadata}`:
the custom keys win. -/
def mergeMetadata (old custom : List (String × String)) : List (String × String) :=
  old.filter (fun p => !(custom.any (fun q => q.1 == p.1))) ++ custom

/-- `Dumper._update_store_metadata` (lines 153-162). -/
def updateStoreMetadata (st : DumperState) (σ : Schema) (existed : Bool) : Schema :=
  { fields := σ.fields,
    metadata := mergeMetadata σ.metadata
      [("date", st.store_date),
       ("contains_gaps", if existed then "Yes" else "No"),
       ("symbol", st.symbol),
       ("event_type", st.event_type),
       ("exchange", st.exchange)] }

/-- `Dumper._reopen` (lines 91-151).  The try/except of lines 110-117 catches a
failure to read the existing file back, logs a warning and leaves
`original_table = None` (the rename to `.bak` has already happened).  Line 122
of the source then evaluates `original_table.nbytes` unconditionally, which is
an uncaught `AttributeError` whenever `original_table` is `None` (no existing
file, or the read-back failed).  The gc/randomness of lines 137-150 and the
logging calls have no modelled effect. -/
def reopen (today : String) (st : DumperState) : Except DumpError DumperState :=
  let st :=
    match st.store with
    | Option.some w => { st with fs := writerClose st.fs w, store := Option.none }
    | Option.none => st
  let st := { st with store_date := today }
  let name := todayFileName st
  let readBack : DumperState × Option PTable × Option PFile :=
    if (fsLookup st.fs name).isSome then
      let fs1 := fsRename st.fs name (name ++ ".bak")
      match pfOpen fs1 (name ++ ".bak") with
      | Except.ok f =>
        match readRowGroup f 0 with
        | Except.ok t => ({ st with fs := fs1 }, Option.some t, Option.some f)
        | Except.error _ =>
          ({ st with fs := fs1, warnings := st.warnings + 1 }, Option.none, Option.none)
      | Except.error _ =>
        ({ st with fs := fs1, warnings := st.warnings + 1 }, Option.none, Option.none)
    else (st, Option.none, Option.none)
  match readBack with
  | (st, originalTable, originalFile) =>
    match st.schema with
    | Option.none => Except.error DumpError.attributeError
    | Option.some σ =>
      let σ1 := updateStoreMetadata st σ originalTable.isSome
      let st := { st with schema := Option.some σ1 }
      let pageSizeGuess := st.buffer_max_len * (σ1.fields.length + 10) * 8
      match originalTable with
      | Option.none => Except.error DumpError.attributeError
      | Option.some t =>
        let _ := max pageSizeGuess (nbytes t)
        let w : Writer := { fileName := name, schema := σ1 }
        let st := { st with fs := writerCreate st.fs name σ1, store := Option.some w }
        match originalFile with
        | Option.none => Except.ok st
        | Option.some f =>
          match (List.range f.rowGroups.length).foldlM
              (fun fs i =>
                match readRowGroup f i with
                | Except.ok t2 => writeTable fs w t2
                | Except.error e => Except.error e) st.fs with
          | Except.error e => Except.error e
          | Except.ok fs2 => Except.ok { st with fs := fsRemove fs2 (name ++ ".bak") }

/-- `Dumper._flush` (lines 171-190): returns immediately when the buffer dict
is empty or the dumper is terminating, or when no row is buffered; otherwise
opens the store if needed, converts the buffer to a table, clears the buffer,
and writes the table as one row group. -/
def flushBuf (today : String) (st : DumperState) : Except DumpError DumperState :=
  if st.column_data.isEmpty || st.terminating then Except.ok st
  else if st.buffer_position == 0 then Except.ok st
  else
    match (match st.store with
           | Option.none => reopen today st
           | Option.some _ => Except.ok st) with
    | Except.error e => Except.error e
    | Except.ok st1 =>
      match st1.store, st1.schema with
      | Option.some w, Option.some σ =>
        match fromPydict st1.column_data σ with
        | Except.error e => Except.error e
        | Except.ok t =>
          let st2 := { st1 with buffer_position := 0, column_data := [] }
          match writeTable st2.fs w t with
          | Except.error e => Except.error e
          | Except.ok fs2 => Except.ok { st2 with fs := fs2 }
      | _, _ => Except.error DumpError.attributeError

/-- The date-rotation prologue of `Dumper.dump` (lines 48-52): when today's
date differs from the open store's date, flush, close the store (`None.close()`
would be an `AttributeError`) and drop the handle. -/
def dumpRotate (today : String) (st : DumperState) : Except DumpError DumperState :=
  if today == st.store_date then Except.ok st
  else
    match flushBuf today st with
    | Except.error e => Except.error e
    | Except.ok st1 =>
      match st1.store with
      | Option.none => Except.error DumpError.attributeError
      | Option.some w =>
        Except.ok { st1 with fs := writerClose st1.fs w, store := Option.none }

/-- The schema-inference step of `Dumper.dump` (lines 55-79): runs exactly when
the buffer dict is empty, creating empty columns for the record's keys and
replacing `self._schema` with the freshly inferred schema. -/
def dumpInfer (msg : Row) (st : DumperState) : Except DumpError DumperState :=
  if st.column_data.isEmpty then
    match inferSchema msg with
    | Except.error e => Except.error e
    | Except.ok σ =>
      Except.ok { st with
        column_data := msg.map (fun p => (p.1, ([] : List PyVal))),
        schema := Option.some σ }
  else Except.ok st

/-- The buffering step of `Dumper.dump` (lines 81-86). -/
def dumpAppend (msg : Row) (st : DumperState) : Except DumpError DumperState :=
  match appendRow st.column_data msg with
  | Except.error e => Except.error e
  | Except.ok cd =>
    Except.ok { st with column_data := cd, buffer_position := st.buffer_position + 1 }

/-- `Dumper.dump` (lines 47-89): rotation check, schema inference on an empty
buffer, buffering, and a flush when the buffer reaches `buffer_max_len`.
Note the source has no check of `self._terminating` here. -/
def dump (today : String) (msg : Row) (st : DumperState) : Except DumpError DumperState :=
  match dumpRotate today st with
  | Except.error e => Except.error e
  | Except.ok st1 =>
    match dumpInfer msg st1 with
    | Except.error e => Except.error e
    | Except.ok st2 =>
      match dumpAppend msg st2 with
      | Except.error e => Except.error e
      | Except.ok st3 =>
        if st3.buffer_position == st3.buffer_max_len then flushBuf today st3
        else Except.ok st3

/-- `Dumper.close` (lines 164-169): flush, set `_terminating`, close the open
store if any (the handle itself is kept). -/
def closeDumper (today : String) (st : DumperState) : Except DumpError DumperState :=
  match flushBuf today st with
  | Except.error e => Except.error e
  | Except.ok st1 =>
    let st2 := { st1 with terminating := true }
    match st2.store with
    | Option.some w => Except.ok { st2 with fs := writerClose st2.fs w }
    | Option.none => Except.ok st2

/-- One side of an order book: a finite price-to-size map with exact decimal
prices and sizes.  This models the sorted dict of the external `order_book`
package with plain mapping semantics (iteration order is irrelevant to the
claims below, and `max_depth` truncation of the external package is not
exercised by them). -/
abbrev SideMap := List (ℚ × ℚ)

/-- Python `d[p] = v`: replace the value when the key is present, else add. -/
def mapSet : SideMap → ℚ → ℚ → SideMap
  | [], p, v => [(p, v)]
  | (q, w) :: r, p, v => if q = p then (p, v) :: r else (q, w) :: mapSet r p v

def mapLookup : SideMap → ℚ → Option ℚ
  | [], _ => Option.none
  | (q, w) :: r, p => if q = p then Option.some w else mapLookup r p

/-- Python `p in d`. -/
def mapMem (m : SideMap) (p : ℚ) : Bool := (mapLookup m p).isSome

/-- Removal of a key that is present (`del d[p]` after a membership check). -/
def mapDelTotal : SideMap → ℚ → SideMap
  | [], _ => []
  | (q, w) :: r, p => if q = p then r else (q, w) :: mapDelTotal r p

/-- Errors raised by the modelled book handlers. -/
inductive BookError where
  | keyError
deriving DecidableEq, Repr

/-- A per-(venue, symbol) order book: two side maps. -/
structure Book where
  bids : SideMap
  asks : SideMap
deriving DecidableEq, Repr

/-- Verbatim installation of one snapshot side: every `(price, size)` pair of
the message is assigned into the fresh map, with no filtering of zero sizes.
This is `Bybit._book` lines 405-409 (`book[side][price] = size` for every
update) and equally the dict comprehensions of `Serum._snapshot` line 88. -/
def installSide (levels : List (ℚ × ℚ)) : SideMap :=
  levels.foldl (fun m pl => mapSet m pl.1 pl.2) []

/-- Snapshot handling of `Bybit._book` (lines 399-409): a fresh book whose
sides hold the message's levels verbatim. -/
def bybitSnapshotBook (bids asks : List (ℚ × ℚ)) : Book :=
  { bids := installSide bids, asks := installSide asks }

/-- Snapshot handling of `Serum._snapshot` (lines 82-89): a fresh book built
from dict comprehensions over the message's levels, verbatim. -/
def serumSnapshotBook (bids asks : List (ℚ × ℚ)) : Book :=
  { bids := installSide bids, asks := installSide asks }

/-- One delta change in `Bybit._book` (lines 414-421): zero size performs
`del book[side][price]` with no membership guard — a `KeyError` when the price
is absent — and nonzero size upserts.  (The recording of the change into the
outgoing `delta` lists is not modelled.) -/
def bybitApplyChange (m : SideMap) (price amount : ℚ) : Except BookError SideMap :=
  if amount = 0 then
    if mapMem m price then Except.ok (mapDelTotal m price)
    else Except.error BookError.keyError
  else Except.ok (mapSet m price amount)

/-- One delta change in `Serum._book` (lines 96-106): zero size removes the
price only when it is present (`if price in ...: del ...`), nonzero upserts. -/
def serumApplyChange (m : SideMap) (price amount : ℚ) : SideMap :=
  if amount = 0 then
    if mapMem m price then mapDelTotal m price else m
  else mapSet m price amount

/-- A delta message: per-side lists of `(price, size)` changes, processed bid
side first, as both handlers do. -/
structure DeltaMsg where
  bids : List (ℚ × ℚ)
  asks : List (ℚ × ℚ)
deriving DecidableEq, Repr

def serumApplySide (m : SideMap) (levels : List (ℚ × ℚ)) : SideMap :=
  levels.foldl (fun m pl => serumApplyChange m pl.1 pl.2) m

def serumApplyDelta (b : Book) (d : DeltaMsg) : Book :=
  { bids := serumApplySide b.bids d.bids, asks := serumApplySide b.asks d.asks }

def serumApplyDeltas (b : Book) (ds : List DeltaMsg) : Book :=
  ds.foldl serumApplyDelta b

def bybitApplySide (m : SideMap) (levels : List (ℚ × ℚ)) : Except BookError SideMap :=
  levels.foldlM (fun m pl => bybitApplyChange m pl.1 pl.2) m

def bybitApplyDelta (b : Book) (d : DeltaMsg) : Except BookError Book :=
  match bybitApplySide b.bids d.bids with
  | Except.error e => Except.error e
  | Except.ok bs =>
    match bybitApplySide b.asks d.asks with
    | Except.error e => Except.error e
    | Except.ok sellSide => Except.ok { bids := bs, asks := sellSide }

def bybitApplyDeltas (b : Book) (ds : List DeltaMsg) : Except BookError Book :=
  ds.foldlM bybitApplyDelta b

/-- No stored level of the side has size 0. -/
def sideNoZero (m : SideMap) : Bool := m.all (fun pl => decide (pl.2 ≠ 0))

/-- No stored level of either side has size 0. -/
def bookNoZero (b : Book) : Bool := sideNoZero b.bids && sideNoZero b.asks

/-- Lifts `bookNoZero` over a possibly-failed delta application. -/
def resultNoZero : Except BookError Book → Bool
  | Except.error _ => true
  | Except.ok b => bookNoZero b

/-- A float cell of a persisted book record: a numeric value or `float('nan')`.
Equality on this type is structural (used only to inspect which cells are
filler), not IEEE float equality. -/
inductive FCell where
  | num (q : ℚ)
  | nan
deriving DecidableEq, Repr

/-- The per-side field-building loops of `BookParquet.__call__` (parquet.py
lines 104-112): the first `min (length view) maxDepth` cells carry the real
levels (the `take` models the bound of `side.to_list(self.max_depth)`), and
every remaining depth up to `max_depth` is filled with `float('nan')` cells. -/
def levelCells (view : List (ℚ × ℚ)) (maxDepth : ℕ) : List (FCell × FCell) :=
  (view.take maxDepth).map (fun pl => (FCell.num pl.1, FCell.num pl.2))
    ++ List.replicate (maxDepth - (view.take maxDepth).length) (FCell.nan, FCell.nan)

/-- `ParquetCallback._format_timestamps` applied to the venue timestamp
(parquet.py line 40): nanoseconds since epoch when present, `None` otherwise. -/
def formatVenueTimestamp (t : Option ℚ) : Option ℤ :=
  match t with
  | Option.some q => Option.some (pyInt (q * 1000000000))
  | Option.none => Option.none

/-- The venue-timestamp field built by `BookParquet.__call__` line 85 and
`BookDeltaParquet.__call__` line 139:
`int(book.timestamp * 1_000_000_000) if book.timestamp else 0` — a falsy
timestamp (`None` or `0.0`) is stored as the integer 0. -/
def bookVenueTimestamp (t : Option ℚ) : ℤ :=
  match t with
  | Option.some q => if q = 0 then 0 else pyInt (q * 1000000000)
  | Option.none => 0

/-- Modelled from the spec: timestamps are stored as integer nanoseconds since
epoch and a missing/unset venue timestamp is stored as a null value, never a
sentinel (spec section 6, persisted file layout). -/
def specNullableTimestamp (t : Option ℚ) : Option ℤ :=
  t.map (fun q => pyInt (q * 1000000000))

/-- The record built by `BookParquet.__call__` for one book event. -/
structure BookRow where
  symbol : String
  exchange : String
  timestamp : ℤ
  receipt_timestamp : ℤ
  sequence_number : Option ℤ
  bids : List (FCell × FCell)
  asks : List (FCell × FCell)
deriving DecidableEq, Repr

/-- The inputs `BookParquet.__call__` reads off the book object. -/
structure BookInput where
  symbol : String
  exchange : String
  timestamp : Option ℚ
  sequence_number : Option ℤ
  bids : List (ℚ × ℚ)
  asks : List (ℚ × ℚ)
deriving DecidableEq, Repr

/-- State of one `BookParquet` sink (parquet.py lines 70-79).  The source's
postponed-flush branch (line 93) assigns to `self._last_receipt_timestamp`,
an attribute distinct from `self.last_receipt_timestamp` that is read by the
interval checks; it is modelled here as the separate, never-read field
`priv_last_receipt_timestamp`. -/
structure BookParquetState where
  maxDepth : ℕ
  snapshotIntervalNs : ℚ
  last_receipt_timestamp : ℤ
  priv_last_receipt_timestamp : ℤ
  saved : ℕ
  dropped : ℕ
  postponed : ℕ
  last_postponed : Option BookRow
  queue : List BookRow
deriving DecidableEq, Repr

/-- `BookParquet.__init__` (with `last_receipt_timestamp = 0`). -/
def mkBookParquet (maxDepth : ℕ) (snapshotIntervalNs : ℚ) : BookParquetState :=
  { maxDepth := maxDepth, snapshotIntervalNs := snapshotIntervalNs,
    last_receipt_timestamp := 0, priv_last_receipt_timestamp := 0,
    saved := 0, dropped := 0, postponed := 0,
    last_postponed := Option.none, queue := [] }

/-- Python float floor division `a // b` (exact rationals in this model). -/
def ratFloorDiv (a b : ℚ) : ℚ := ((Rat.floor (a / b) : ℤ) : ℚ)

/-- The record assembled by `BookParquet.__call__` lines 82-112 (the level
fields are only materialized on the non-dropped paths, where the source
builds them). -/
def buildBookRow (st : BookParquetState) (b : BookInput) (recNs : ℤ) : BookRow :=
  { symbol := b.symbol, exchange := b.exchange,
    timestamp := bookVenueTimestamp b.timestamp,
    receipt_timestamp := recNs,
    sequence_number := b.sequence_number,
    bids := levelCells b.bids st.maxDepth,
    asks := levelCells b.asks st.maxDepth }

/-- `BookParquet.__call__` (parquet.py lines 81-121), one sequential call with
local receipt time `recSeconds` (seconds).  Steps, in source order: flush the
postponed record to the queue when the new event arrives more than half the
snapshot interval after it (updating only the `_last_receipt_timestamp`
attribute, modelled by `priv_last_receipt_timestamp`); drop the event when it
is within a quarter interval of the last directly-saved event; otherwise
either enqueue it (at or beyond a full interval) or make it the postponed
record, replacing any previous one. -/
def bookCall (st : BookParquetState) (b : BookInput) (recSeconds : ℚ) : BookParquetState :=
  let recNs : ℤ := pyInt (recSeconds * 1000000000)
  let st :=
    match st.last_postponed with
    | Option.some lp =>
      if ((recNs - lp.receipt_timestamp : ℤ) : ℚ) > st.snapshotIntervalNs / 2 then
        { st with queue := st.queue ++ [lp], saved := st.saved + 1,
                  priv_last_receipt_timestamp := lp.receipt_timestamp,
                  last_postponed := Option.none }
      else st
    | Option.none => st
  let withinSnapshotInterval :=
    ((recNs - st.last_receipt_timestamp : ℤ) : ℚ) < st.snapshotIntervalNs
  let withinQuarterSnapshotInterval :=
    ((recNs - st.last_receipt_timestamp : ℤ) : ℚ) < ratFloorDiv st.snapshotIntervalNs 4
  if withinQuarterSnapshotInterval then { st with dropped := st.dropped + 1 }
  else
    let row := buildBookRow st b recNs
    if ¬ withinSnapshotInterval then
      { st with queue := st.queue ++ [row], saved := st.saved + 1,
                last_receipt_timestamp := recNs }
    else
      { st with postponed := st.postponed + 1, last_postponed := Option.some row }

/-- Modelled from the spec wording of claim C9 (spec section 4.4, `write`):
each field's type is chosen by trying, in order: integer, floating point,
boolean, else string, with fully numeric string values classified as the
numeric type; an unclassifiable value is a fatal schema error.  Note there is
no hexadecimal/binary case in this wording. -/
def specInferType (v : PyVal) : Except DumpError PaType :=
  match v with
  | PyVal.none => Except.error DumpError.typeError
  | PyVal.int _ => Except.ok PaType.int64
  | PyVal.float _ => Except.ok PaType.float64
  | PyVal.bool _ => Except.ok PaType.bool_
  | PyVal.str s =>
    if isIntStr s then Except.ok PaType.int64
    else if isFloatStr s then Except.ok PaType.float64
    else Except.ok PaType.string

/-- Modelled from the amended claim C9: as `specInferType`, with one extra
case tried between integer and floating point for strings — a string of
length at least 8 that parses as a hexadecimal integer (and is not an
integral decimal literal) is typed as a fixed-width binary of the string's
length. -/
def specInferTypeAmended (v : PyVal) : Except DumpError PaType :=
  match v with
  | PyVal.none => Except.error DumpError.typeError
  | PyVal.int _ => Except.ok PaType.int64
  | PyVal.float _ => Except.ok PaType.float64
  | PyVal.bool _ => Except.ok PaType.bool_
  | PyVal.str s =>
    if isIntStr s then Except.ok PaType.int64
    else if isHexStr s then Except.ok (PaType.binary s.length)
    else if isFloatStr s then Except.ok PaType.float64
    else Except.ok PaType.string

/-- Schema used by the concrete dumper scenarios: one int64 column `a`. -/
def scnIntSchema : Schema := { fields := [("a", PaType.int64)], metadata := [] }

/-- The partition file path of the concrete scenarios (event type `e`,
exchange `x`, symbol `s`, date 2021-01-01). -/
def scnPath : String := "data/e/exchange=x/symbol=s/dt=2021-01-01/1.snappy.parquet"

/-- An existing, fully readable one-row-group file for the current day. -/
def scnGoodFile : PFile :=
  { schema := scnIntSchema, rowGroups := [[("a", [PyVal.int 7])]],
    finished := true, corrupt := false }

/-- An existing but unreadable (corrupt) file for the current day. -/
def scnCorruptFile : PFile := { scnGoodFile with corrupt := true }

/-- C1 scenario: a fresh dumper (buffer length 1) over a filesystem whose
current-day partition file exists but cannot be read back; the first `dump`
triggers the first flush and hence `_reopen`. -/
def c1Run : Except DumpError DumperState :=
  dump "2021-01-01" [("a", PyVal.int 1)]
    (mkDumper "test" "s" "e" "x" 1 "2021-01-01" [(scnPath, scnCorruptFile)])

/-- C2 scenario, first step: a fresh dumper (buffer length 2) over a readable
existing current-day file, after one record of type int. -/
def c2AfterFirst : Except DumpError DumperState :=
  dump "2021-01-01" [("a", PyVal.int 1)]
    (mkDumper "test" "s" "e" "x" 2 "2021-01-01" [(scnPath, scnGoodFile)])

/-- C2 scenario, full: a second int record fills the buffer (successful flush
to the pre-existing file), then a third record whose value is a plain string
arrives into the now-empty buffer. -/
def c2Run : Except DumpError DumperState :=
  match c2AfterFirst with
  | Except.error e => Except.error e
  | Except.ok st =>
    match dump "2021-01-01" [("a", PyVal.int 2)] st with
    | Except.error e => Except.error e
    | Except.ok st => dump "2021-01-01" [("a", PyVal.str "x")] st

/-- C3 scenario: close a fresh dumper (empty buffer), then write one record to
it on the same day. -/
def c3Run : Except DumpError DumperState :=
  match closeDumper "2021-01-01" (mkDumper "test" "s" "e" "x" 2 "2021-01-01" []) with
  | Except.error e => Except.error e
  | Except.ok st => dump "2021-01-01" [("a", PyVal.int 5)] st

/-- C4 scenario: the spec's rotation test (buffer length 3, fresh filesystem),
first day's records; the third record fills the buffer and triggers the first
flush and `_reopen`. -/
def c4Run : Except DumpError DumperState :=
  match dump "2021-01-01" [("a", PyVal.str "1"), ("b", PyVal.str "asd")]
      (mkDumper "test" "s" "e" "x" 3 "2021-01-01" []) with
  | Except.error e => Except.error e
  | Except.ok st =>
    match dump "2021-01-01" [("a", PyVal.str "2"), ("b", PyVal.str "qwe")] st with
    | Except.error e => Except.error e
    | Except.ok st => dump "2021-01-01" [("a", PyVal.str "3"), ("b", PyVal.str "rty")] st

/-- Book event used by the BookParquet scenarios (no venue timestamp). -/
def c10Book : BookInput :=
  { symbol := "BTC-USD", exchange := "SERUM", timestamp := Option.none,
    sequence_number := Option.none, bids := [(100, 1)], asks := [(101, 2)] }

/-- C10 scenario, first two events: snapshot interval 0.1 s (1e8 ns, quarter
2.5e7 ns, half 5e7 ns); an event at 1 s (directly saved) and an event at
1.03 s (0.03 s after the save: postponed). -/
def c10AfterTwo : BookParquetState :=
  bookCall (bookCall (mkBookParquet 1 100000000) c10Book 1) c10Book (103 / 100)

/-- C10 scenario, full: a third event at 1.09 s, 0.06 s (more than half the
interval) after the postponed event. -/
def c10Run : BookParquetState := bookCall c10AfterTwo c10Book (109 / 100)

/-- The record postponed at 1.03 s in the C10 scenario. -/
def c10PostponedRow : BookRow :=
  { symbol := "BTC-USD", exchange := "SERUM", timestamp := 0,
    receipt_timestamp := 1030000000, sequence_number := Option.none,
    bids := [(FCell.num 100, FCell.num 1)], asks := [(FCell.num 101, FCell.num 2)] }

/-- Mid-batch dumper state used by the C2 witness: one int row buffered under
an already-inferred schema, buffer length 3. -/
def w2State : DumperState :=
  { mkDumper "test" "s" "e" "x" 3 "2021-01-01" [] with
    column_data := [("a", [PyVal.int 1])],
    schema := Option.some scnIntSchema,
    buffer_position := 1 }

/-- Expected result of dumping one more int record into `w2State`. -/
def w2Result : DumperState :=
  { w2State with column_data := [("a", [PyVal.int 1, PyVal.int 2])], buffer_position := 2 }

/-- Terminated dumper state used by the C3 witness. -/
def w3State : DumperState :=
  { mkDumper "test" "s" "e" "x" 2 "2021-01-01" [] with terminating := true }

/-- Expected result of dumping one record into the terminated `w3State`. -/
def w3Result : DumperState :=
  { w3State with
    column_data := [("a", [PyVal.int 5])]
    schema := Option.some scnIntSchema
    buffer_position := 1 }

/-- Side map used by the C6 witness: one level at price 2. -/
def w6m : SideMap := [(2, 5)]

deriving instance DecidableEq for Except

section

attribute [local semireducible] Rat.mul Rat.add Rat.sub Rat.inv Rat.ofScientific

/-- Claim C1 (code bug).  The claim says a failure reading the existing
current-day file back degrades gracefully: a warning is logged and the engine
proceeds with a fresh empty file, returning normally.  In the code the except
handler of `Dumper._reopen` (lines 116-117) does log the warning and leaves
`original_table = None`, but line 122 then evaluates `original_table.nbytes`
unconditionally, so the open raises an uncaught `AttributeError` instead of
returning normally: the concrete run below, whose only unusual feature is an
existing-but-unreadable partition file, ends in that error. -/
theorem reopen_read_failure_raises : c1Run = Except.error DumpError.attributeError := by decide

/-- Claim C4 (code bug).  In the spec's rotation scenario (buffer length 3,
no pre-existing files) the third record of day D1 triggers the first flush,
whose `_reopen` finds no existing file, leaves `original_table = None`, and
crashes at `original_table.nbytes` (dumper.py line 122) with an
`AttributeError` — before any file is written, so the two files the claim
(and the repo's own `test_dumper_reopen`) describe are never produced. -/
theorem rotation_scenario_crashes_on_first_flush :
    c4Run = Except.error DumpError.attributeError := by decide

/-- Claim C2 counterexample.  The schema is not frozen on the partition's
first non-empty row: after the first record (an int) the inferred schema has
an int64 column, but once the buffer has been flushed (made possible here by a
pre-existing readable file, which sidesteps the crash of line 122) the next
record finds `_column_data` empty and `Dumper.dump` line 55 re-infers,
replacing the schema by a string-typed one within the same partition, file
and day. -/
theorem schema_refrozen_across_batches_cx :
    c2AfterFirst.map (fun st => st.schema) = Except.ok (Option.some scnIntSchema)
    ∧ c2Run.map (fun st => st.schema)
      = Except.ok (Option.some { fields := [("a", PaType.string)], metadata := [] })
    ∧ ({ fields := [("a", PaType.string)], metadata := [] } : Schema) ≠ scnIntSchema := by decide

/-- Claim C3 counterexample.  A write after `close()` is not rejected: the
run closes a dumper and then dumps one record on the same day; the call
returns normally (no error is signalled to the caller) and the record sits in
the in-memory buffer, while the filesystem stays empty. -/
theorem dump_after_close_buffers_cx :
    c3Run.map (fun st => (st.column_data, st.buffer_position, st.fs))
      = Except.ok ([("a", [PyVal.int 5])], 1, ([] : FS)) := by decide

/-- Claim C5 counterexample.  A zero-size level appearing inside a Snapshot is
stored: both the Bybit snapshot branch and the Serum snapshot install the
message's levels verbatim, so a snapshot containing the level (100, 0) yields
a book whose bid map stores size 0. -/
theorem snapshot_zero_level_stored_cx :
    (bybitSnapshotBook [((100 : ℚ), (0 : ℚ))] []).bids = [(100, 0)]
    ∧ bookNoZero (bybitSnapshotBook [((100 : ℚ), (0 : ℚ))] []) = false
    ∧ bookNoZero (serumSnapshotBook [((100 : ℚ), (0 : ℚ))] []) = false := by decide

/-- Claim C6 counterexample.  A size-0 change for a price absent from the side
map is not a no-op in the Bybit handler: `del book[side][price]` has no
membership guard, so it raises `KeyError`. -/
theorem bybit_remove_absent_raises_cx :
    bybitApplyChange [] 100 0 = Except.error BookError.keyError := by decide

/-- Claim C7 counterexample.  For a side holding one real level under
`max_depth = 2`, the persisted record is not a variable-length view: the
missing depth is fabricated as a `float('nan')` filler pair (parquet.py
lines 109-112), and the record has fixed length 2, not 1. -/
theorem view_nan_filler_cx :
    levelCells [((100 : ℚ), (1 : ℚ))] 2 = [(FCell.num 100, FCell.num 1), (FCell.nan, FCell.nan)]
    ∧ (FCell.nan, FCell.nan) ∈ levelCells [((100 : ℚ), (1 : ℚ))] 2
    ∧ (levelCells [((100 : ℚ), (1 : ℚ))] 2).length ≠ 1 := by decide

/-- Claim C8 counterexample.  A missing venue timestamp is not stored as a
null by the book sinks: `BookParquet.__call__` line 85 (and
`BookDeltaParquet.__call__` line 139) store the integer sentinel 0, unlike the
spec-worded nullable encoding; in the C10 run (whose book events carry no
venue timestamp) both persisted records carry timestamp 0. -/
theorem book_timestamp_zero_sentinel_cx :
    bookVenueTimestamp Option.none = 0
    ∧ specNullableTimestamp Option.none = Option.none
    ∧ c10Run.queue.map (fun r => r.timestamp) = [0, 0] := by decide

/-- Claim C9 counterexample.  The claimed inference order (integer, floating
point, boolean, else string) types the non-numeric string `deadbeef` as
string, but `Dumper.dump` lines 67-68 try `_is_hex` before `_is_float` and
type it as an 8-byte fixed-width binary. -/
theorem hex_string_inferred_binary_cx :
    inferType (PyVal.str "deadbeef") = Except.ok (PaType.binary 8)
    ∧ specInferType (PyVal.str "deadbeef") = Except.ok PaType.string
    ∧ (Except.ok (PaType.binary 8) : Except DumpError PaType) ≠ Except.ok PaType.string := by
  decide

/-- Claim C10 counterexample.  A previously postponed event is not always
discarded when a new event replaces it: in the concrete run the event at
1.03 s is postponed, and when the event at 1.09 s arrives more than half the
snapshot interval later, lines 88-94 of parquet.py enqueue (persist) the
postponed event before the new event takes its place — the queue ends holding
the receipt timestamps 1 s and 1.03 s while 1.09 s is the new postponed
record. -/
theorem postponed_event_persisted_cx :
    c10Run.queue.map (fun r => r.receipt_timestamp) = [1000000000, 1030000000]
    ∧ c10Run.last_postponed.map (fun r => r.receipt_timestamp) = Option.some 1090000000
    ∧ c10Run.saved = 2 := by decide


/-- Once a dumper is terminating, `_flush` is a no-op: the very first check of
`Dumper._flush` (line 172) returns without touching the buffer, the store or
the filesystem. -/
theorem flushBuf_terminating_noop (today : String) (st : DumperState)
    (h : st.terminating = true) : flushBuf today st = Except.ok st := by
  simp [flushBuf, h]

/-- Frame lemma for the schema-inference step of `dump`: the step only touches
`column_data` and `schema`. -/
theorem dumpInfer_frame (msg : Row) (st st2 : DumperState)
    (h : dumpInfer msg st = Except.ok st2) :
    st2.fs = st.fs ∧ st2.terminating = st.terminating
      ∧ st2.buffer_position = st.buffer_position ∧ st2.store = st.store
      ∧ st2.buffer_max_len = st.buffer_max_len ∧ st2.store_date = st.store_date := by
  unfold dumpInfer at h
  split at h
  · cases hi : inferSchema msg with
    | error e => rw [hi] at h; cases h
    | ok σ => rw [hi] at h; cases h; simp
  · cases h; simp

/-- Frame lemma for the buffering step of `dump`: the step appends one record
and advances the buffer position, touching nothing else. -/
theorem dumpAppend_frame (msg : Row) (st st2 : DumperState)
    (h : dumpAppend msg st = Except.ok st2) :
    st2.fs = st.fs ∧ st2.terminating = st.terminating
      ∧ st2.buffer_position = st.buffer_position + 1 ∧ st2.store = st.store
      ∧ st2.buffer_max_len = st.buffer_max_len ∧ st2.schema = st.schema
      ∧ st2.store_date = st.store_date := by
  unfold dumpAppend at h
  cases ha : appendRow st.column_data msg with
  | error e => rw [ha] at h; cases h
  | ok cd => rw [ha] at h; cases h; simp

/-- The schema produced by the inference step: on an empty buffer it is the
freshly inferred schema of the record, on a non-empty buffer it is untouched
(and the state is untouched entirely). -/
theorem dumpInfer_schema (msg : Row) (st st2 : DumperState)
    (h : dumpInfer msg st = Except.ok st2) :
    (st.column_data = [] → ∃ σ, inferSchema msg = Except.ok σ ∧ st2.schema = Option.some σ)
      ∧ (st.column_data ≠ [] → st2 = st) := by
  unfold dumpInfer at h
  by_cases he : st.column_data = []
  · rw [if_pos (by simp [he])] at h
    cases hi : inferSchema msg with
    | error e => rw [hi] at h; cases h
    | ok σ =>
      rw [hi] at h
      cases h
      exact ⟨fun _ => ⟨σ, rfl, rfl⟩, fun hne => absurd he hne⟩
  · rw [if_neg (by simp [he])] at h
    cases h
    exact ⟨fun hEq => absurd hEq he, fun _ => rfl⟩

/-- Claim C3 (corrected).  Amended claim: after `close()` the dumper is
terminating; a subsequent same-day `dump` that returns normally has silently
buffered the record (the buffer position advances) while the filesystem is
left untouched — `_flush` is a no-op once terminating, so records submitted
after close are retained in memory and never written, but no error is
signalled to the caller. -/
theorem dump_after_close_never_flushes (st : DumperState) (today : String) (msg : Row)
    (st' : DumperState) (hterm : st.terminating = true) (hdate : st.store_date = today)
    (hok : dump today msg st = Except.ok st') :
    st'.fs = st.fs ∧ st'.terminating = true
      ∧ st'.buffer_position = st.buffer_position + 1 ∧ st'.store = st.store := by
  unfold dump dumpRotate at hok
  rw [if_pos (by simp [hdate])] at hok
  dsimp only at hok
  cases h1 : dumpInfer msg st with
  | error e => rw [h1] at hok; cases hok
  | ok st2 =>
    rw [h1] at hok
    dsimp only at hok
    obtain ⟨h2fs, h2t, h2b, h2s, h2m, h2d⟩ := dumpInfer_frame msg st st2 h1
    cases h3 : dumpAppend msg st2 with
    | error e => rw [h3] at hok; cases hok
    | ok st3 =>
      rw [h3] at hok
      dsimp only at hok
      obtain ⟨h3fs, h3t, h3b, h3s, h3m, h3sc, h3d⟩ := dumpAppend_frame msg st2 st3 h3
      have ht3 : st3.terminating = true := by rw [h3t, h2t, hterm]
      split at hok
      · rw [flushBuf_terminating_noop today st3 ht3] at hok
        cases hok
        refine ⟨by rw [h3fs, h2fs], ht3, by rw [h3b, h2b], by rw [h3s, h2s]⟩
      · cases hok
        refine ⟨by rw [h3fs, h2fs], ht3, by rw [h3b, h2b], by rw [h3s, h2s]⟩

/-- Claim C3 witness: a concrete terminated dumper accepts a same-day record
into its buffer without error and without touching the (empty) filesystem. -/
theorem dump_after_close_never_flushes_w :
    w3State.terminating = true ∧ w3State.store_date = "2021-01-01"
    ∧ dump "2021-01-01" [("a", PyVal.int 5)] w3State = Except.ok w3Result
    ∧ (w3Result.fs = w3State.fs ∧ w3Result.terminating = true
       ∧ w3Result.buffer_position = w3State.buffer_position + 1
       ∧ w3Result.store = w3State.store) :=
  ⟨rfl, rfl, by decide,
    dump_after_close_never_flushes w3State "2021-01-01" [("a", PyVal.int 5)] w3Result
      rfl rfl (by decide)⟩

/-- Claim C2 (corrected).  Amended claim: the inferred schema is fixed only
within one flush batch, not for the partition's lifetime — `Dumper.dump`
re-infers it from the incoming record whenever the in-memory buffer is empty
(first record ever, and first record after every flush, which clears the
buffer), and leaves it untouched while the buffer is non-empty.  (The
hypothesis that the incoming record does not fill the buffer keeps the
statement about the in-dump behaviour, away from the extra metadata rewrite
that `_reopen` performs during a flush.) -/
theorem dump_schema_fixed_within_batch (st : DumperState) (today : String) (msg : Row)
    (st' : DumperState) (hdate : st.store_date = today)
    (hlen : st.buffer_position + 1 ≠ st.buffer_max_len)
    (hok : dump today msg st = Except.ok st') :
    (st.column_data ≠ [] → st'.schema = st.schema)
      ∧ (st.column_data = [] →
          ∃ σ, inferSchema msg = Except.ok σ ∧ st'.schema = Option.some σ) := by
  unfold dump dumpRotate at hok
  rw [if_pos (by simp [hdate])] at hok
  dsimp only at hok
  cases h1 : dumpInfer msg st with
  | error e => rw [h1] at hok; cases hok
  | ok st2 =>
    rw [h1] at hok
    dsimp only at hok
    obtain ⟨h2fs, h2t, h2b, h2s, h2m, h2d⟩ := dumpInfer_frame msg st st2 h1
    obtain ⟨h2schEmpty, h2schNe⟩ := dumpInfer_schema msg st st2 h1
    cases h3 : dumpAppend msg st2 with
    | error e => rw [h3] at hok; cases hok
    | ok st3 =>
      rw [h3] at hok
      dsimp only at hok
      obtain ⟨h3fs, h3t, h3b, h3s, h3m, h3sc, h3d⟩ := dumpAppend_frame msg st2 st3 h3
      have hcond : (st3.buffer_position == st3.buffer_max_len) = false := by
        rw [h3b, h2b, h3m, h2m]
        simpa using hlen
      rw [hcond] at hok
      simp only [Bool.false_eq_true, if_false] at hok
      cases hok
      constructor
      · intro hne
        rw [h3sc, h2schNe hne]
      · intro he
        obtain ⟨σ, hσ, hsch⟩ := h2schEmpty he
        exact ⟨σ, hσ, by rw [h3sc, hsch]⟩

/-- Claim C2 witness: a concrete mid-batch dump (one int row already buffered,
buffer not filling) leaves the previously inferred schema untouched. -/
theorem dump_schema_fixed_within_batch_w :
    w2State.store_date = "2021-01-01"
    ∧ w2State.buffer_position + 1 ≠ w2State.buffer_max_len
    ∧ dump "2021-01-01" [("a", PyVal.int 2)] w2State = Except.ok w2Result
    ∧ ((w2State.column_data ≠ [] → w2Result.schema = w2State.schema)
       ∧ (w2State.column_data = [] →
           ∃ σ, inferSchema [("a", PyVal.int 2)] = Except.ok σ
             ∧ w2Result.schema = Option.some σ)) :=
  ⟨rfl, by decide, by decide,
    dump_schema_fixed_within_batch w2State "2021-01-01" [("a", PyVal.int 2)] w2Result
      rfl (by decide) (by decide)⟩

/-- Looking up the freshly set key finds the new value. -/
theorem mapLookup_mapSet (m : SideMap) (p v : ℚ) :
    mapLookup (mapSet m p v) p = Option.some v := by
  induction m with
  | nil => simp [mapSet, mapLookup]
  | cons hd tl ih =>
    obtain ⟨q, w⟩ := hd
    by_cases h : q = p
    · simp [mapSet, mapLookup, h]
    · simp [mapSet, mapLookup, h, ih]

/-- Membership after an upsert. -/
theorem mapMem_mapSet (m : SideMap) (p v : ℚ) : mapMem (mapSet m p v) p = true := by
  simp [mapMem, mapLookup_mapSet]

/-- Deleting the single occurrence introduced by an upsert over a map that did
not contain the key leaves the key absent. -/
theorem mapLookup_mapDelTotal_mapSet (m : SideMap) (p v : ℚ)
    (habs : mapLookup m p = Option.none) :
    mapLookup (mapDelTotal (mapSet m p v) p) p = Option.none := by
  induction m with
  | nil => simp [mapSet, mapDelTotal, mapLookup]
  | cons hd tl ih =>
    obtain ⟨q, w⟩ := hd
    by_cases h : q = p
    · rw [mapLookup, if_pos h] at habs
      cases habs
    · rw [mapLookup, if_neg h] at habs
      rw [mapSet, if_neg h, mapDelTotal, if_neg h, mapLookup, if_neg h]
      exact ih habs

/-- An upsert with a nonzero size preserves the no-zero-size invariant. -/
theorem sideNoZero_mapSet (m : SideMap) (p v : ℚ) (hv : v ≠ 0)
    (hm : sideNoZero m = true) : sideNoZero (mapSet m p v) = true := by
  induction m with
  | nil => simp [mapSet, sideNoZero, hv]
  | cons hd tl ih =>
    obtain ⟨q, w⟩ := hd
    simp only [sideNoZero, List.all_cons, Bool.and_eq_true, decide_eq_true_eq] at hm
    by_cases h : q = p
    · simp [mapSet, sideNoZero, h, hv]
      simpa [sideNoZero] using hm.2
    · simp only [mapSet, if_neg h, sideNoZero, List.all_cons, Bool.and_eq_true,
        decide_eq_true_eq]
      exact ⟨hm.1, by simpa [sideNoZero] using ih (by simpa [sideNoZero] using hm.2)⟩

/-- Deletion preserves the no-zero-size invariant. -/
theorem sideNoZero_mapDelTotal (m : SideMap) (p : ℚ) (hm : sideNoZero m = true) :
    sideNoZero (mapDelTotal m p) = true := by
  induction m with
  | nil => simpa [mapDelTotal] using hm
  | cons hd tl ih =>
    obtain ⟨q, w⟩ := hd
    simp only [sideNoZero, List.all_cons, Bool.and_eq_true, decide_eq_true_eq] at hm
    by_cases h : q = p
    · simp only [mapDelTotal, if_pos h]
      simpa [sideNoZero] using hm.2
    · simp only [mapDelTotal, if_neg h, sideNoZero, List.all_cons, Bool.and_eq_true,
        decide_eq_true_eq]
      exact ⟨hm.1, by simpa [sideNoZero] using ih (by simpa [sideNoZero] using hm.2)⟩

/-- One Serum delta change preserves the no-zero-size invariant: a zero size
always removes, a nonzero size upserts a nonzero level. -/
theorem sideNoZero_serumApplyChange (m : SideMap) (p v : ℚ)
    (hm : sideNoZero m = true) : sideNoZero (serumApplyChange m p v) = true := by
  unfold serumApplyChange
  by_cases hz : v = 0
  · rw [if_pos hz]
    by_cases hmem : mapMem m p = true
    · rw [if_pos hmem]
      exact sideNoZero_mapDelTotal m p hm
    · rw [if_neg hmem]
      exact hm
  · rw [if_neg hz]
    exact sideNoZero_mapSet m p v hz hm

/-- A whole Serum delta side preserves the no-zero-size invariant. -/
theorem sideNoZero_serumApplySide (levels : List (ℚ × ℚ)) (m : SideMap)
    (hm : sideNoZero m = true) : sideNoZero (serumApplySide m levels) = true := by
  induction levels generalizing m with
  | nil => simpa [serumApplySide] using hm
  | cons hd tl ih =>
    rw [serumApplySide, List.foldl_cons]
    exact ih _ (sideNoZero_serumApplyChange m hd.1 hd.2 hm)

/-- One successful Bybit delta change preserves the no-zero-size invariant. -/
theorem sideNoZero_bybitApplyChange (m m' : SideMap) (p v : ℚ)
    (hm : sideNoZero m = true) (h : bybitApplyChange m p v = Except.ok m') :
    sideNoZero m' = true := by
  unfold bybitApplyChange at h
  by_cases hz : v = 0
  · rw [if_pos hz] at h
    by_cases hmem : mapMem m p = true
    · rw [if_pos hmem] at h
      cases h
      exact sideNoZero_mapDelTotal m p hm
    · rw [if_neg hmem] at h
      cases h
  · rw [if_neg hz] at h
    cases h
    exact sideNoZero_mapSet m p v hz hm

/-- A whole successful Bybit delta side preserves the no-zero-size invariant. -/
theorem sideNoZero_bybitApplySide (levels : List (ℚ × ℚ)) (m m' : SideMap)
    (hm : sideNoZero m = true) (h : bybitApplySide m levels = Except.ok m') :
    sideNoZero m' = true := by
  induction levels generalizing m with
  | nil =>
    rw [bybitApplySide, List.foldlM_nil] at h
    cases h
    exact hm
  | cons hd tl ih =>
    rw [bybitApplySide, List.foldlM_cons] at h
    cases hstep : bybitApplyChange m hd.1 hd.2 with
    | error e => rw [hstep] at h; cases h
    | ok m1 =>
      rw [hstep] at h
      exact ih m1 (sideNoZero_bybitApplyChange m m1 hd.1 hd.2 hm hstep) h

/-- A Serum delta preserves the book-level no-zero-size invariant. -/
theorem bookNoZero_serumApplyDelta (b : Book) (d : DeltaMsg)
    (hb : bookNoZero b = true) : bookNoZero (serumApplyDelta b d) = true := by
  simp only [bookNoZero, Bool.and_eq_true] at hb ⊢
  exact ⟨sideNoZero_serumApplySide d.bids b.bids hb.1,
    sideNoZero_serumApplySide d.asks b.asks hb.2⟩

/-- Any sequence of Serum deltas preserves the invariant. -/
theorem bookNoZero_serumApplyDeltas (ds : List DeltaMsg) (b : Book)
    (hb : bookNoZero b = true) : bookNoZero (serumApplyDeltas b ds) = true := by
  induction ds generalizing b with
  | nil => simpa [serumApplyDeltas] using hb
  | cons hd tl ih =>
    rw [serumApplyDeltas, List.foldl_cons]
    exact ih _ (bookNoZero_serumApplyDelta b hd hb)

/-- A successful Bybit delta preserves the book-level invariant. -/
theorem bookNoZero_bybitApplyDelta (b b' : Book) (d : DeltaMsg)
    (hb : bookNoZero b = true) (h : bybitApplyDelta b d = Except.ok b') :
    bookNoZero b' = true := by
  simp only [bookNoZero, Bool.and_eq_true] at hb
  unfold bybitApplyDelta at h
  cases h1 : bybitApplySide b.bids d.bids with
  | error e => rw [h1] at h; cases h
  | ok bs =>
    rw [h1] at h
    cases h2 : bybitApplySide b.asks d.asks with
    | error e => rw [h2] at h; cases h
    | ok ss =>
      rw [h2] at h
      cases h
      simp only [bookNoZero, Bool.and_eq_true]
      exact ⟨sideNoZero_bybitApplySide d.bids b.bids bs hb.1 h1,
        sideNoZero_bybitApplySide d.asks b.asks ss hb.2 h2⟩

/-- Any successful sequence of Bybit deltas preserves the invariant. -/
theorem bookNoZero_bybitApplyDeltas (ds : List DeltaMsg) (b b' : Book)
    (hb : bookNoZero b = true) (h : bybitApplyDeltas b ds = Except.ok b') :
    bookNoZero b' = true := by
  induction ds generalizing b with
  | nil =>
    rw [bybitApplyDeltas, List.foldlM_nil] at h
    cases h
    exact hb
  | cons hd tl ih =>
    rw [bybitApplyDeltas, List.foldlM_cons] at h
    cases hstep : bybitApplyDelta b hd with
    | error e => rw [hstep] at h; cases h
    | ok b1 =>
      rw [hstep] at h
      exact ih b1 (bookNoZero_bybitApplyDelta b b1 hd hb hstep) h

/-- Installing snapshot levels whose sizes are all nonzero yields a side map
with no zero-size level. -/
theorem sideNoZero_installSide (levels : List (ℚ × ℚ))
    (h : levels.all (fun pl => decide (pl.2 ≠ 0)) = true) :
    sideNoZero (installSide levels) = true := by
  suffices H : ∀ m : SideMap, sideNoZero m = true →
      sideNoZero (levels.foldl (fun m pl => mapSet m pl.1 pl.2) m) = true by
    exact H [] rfl
  induction levels with
  | nil => intro m hm; simpa using hm
  | cons hd tl ih =>
    intro m hm
    simp only [List.all_cons, Bool.and_eq_true, decide_eq_true_eq] at h
    rw [List.foldl_cons]
    exact ih h.2 _ (sideNoZero_mapSet m hd.1 hd.2 h.1 hm)

/-- Claim C5 (corrected).  Amended claim: delta processing never stores a
zero-size level (a size-0 change always removes), so for every Snapshot that
itself contains no zero-size level, applying any number of deltas — all of
them for the Serum handler, any successfully applied ones for the Bybit
handler — keeps both side maps (and hence every exposed view of them) free of
zero-size levels.  Snapshot contents, however, are installed verbatim, so the
original claim's parenthetical about zero-size levels inside the Snapshot
itself fails (see the counterexample). -/
theorem no_zero_levels_after_clean_snapshot (bids asks : List (ℚ × ℚ)) (ds : List DeltaMsg)
    (h : (bids ++ asks).all (fun pl => decide (pl.2 ≠ 0)) = true) :
    bookNoZero (serumApplyDeltas (serumSnapshotBook bids asks) ds) = true
      ∧ resultNoZero (bybitApplyDeltas (bybitSnapshotBook bids asks) ds) = true := by
  rw [List.all_append, Bool.and_eq_true] at h
  have hsnap : bookNoZero (serumSnapshotBook bids asks) = true := by
    simp only [serumSnapshotBook, bookNoZero, Bool.and_eq_true]
    exact ⟨sideNoZero_installSide bids h.1, sideNoZero_installSide asks h.2⟩
  have hsnap2 : bookNoZero (bybitSnapshotBook bids asks) = true := by
    simp only [bybitSnapshotBook, bookNoZero, Bool.and_eq_true]
    exact ⟨sideNoZero_installSide bids h.1, sideNoZero_installSide asks h.2⟩
  refine ⟨bookNoZero_serumApplyDeltas ds _ hsnap, ?_⟩
  cases hb : bybitApplyDeltas (bybitSnapshotBook bids asks) ds with
  | error e => simp [resultNoZero]
  | ok b' =>
    simpa [resultNoZero] using bookNoZero_bybitApplyDeltas ds _ b' hsnap2 hb

/-- Claim C5 witness: the spec's own scenario — snapshot bids `[(100, 1)]`,
asks `[(101, 2)]`, then a delta removing 100 and adding `(99, 5)` — leaves
both handlers' books free of zero-size levels. -/
theorem no_zero_levels_after_clean_snapshot_w :
    (([((100 : ℚ), (1 : ℚ))] ++ [((101 : ℚ), (2 : ℚ))]).all
        (fun pl => decide (pl.2 ≠ 0)) = true)
    ∧ (bookNoZero (serumApplyDeltas (serumSnapshotBook [((100 : ℚ), (1 : ℚ))]
          [((101 : ℚ), (2 : ℚ))]) [⟨[(100, 0), (99, 5)], []⟩]) = true
       ∧ resultNoZero (bybitApplyDeltas (bybitSnapshotBook [((100 : ℚ), (1 : ℚ))]
          [((101 : ℚ), (2 : ℚ))]) [⟨[(100, 0), (99, 5)], []⟩]) = true) :=
  ⟨by decide,
    no_zero_levels_after_clean_snapshot [((100 : ℚ), (1 : ℚ))] [((101 : ℚ), (2 : ℚ))]
      [⟨[(100, 0), (99, 5)], []⟩] (by decide)⟩

/-- Claim C6 (corrected).  Amended claim: a size-0 change removes the level
from the side map, and a nonzero size upserts it, in both handlers; but the
behaviour on a size-0 change for an absent price differs — the Serum handler
makes it a no-op (leaving the map unchanged), while the Bybit handler raises
`KeyError`.  When the price is present, both remove it. -/
theorem delta_zero_removes_nonzero_upserts (m : SideMap) (p v : ℚ)
    (habs : mapLookup m p = Option.none) (hv : v ≠ 0) :
    serumApplyChange m p 0 = m
    ∧ bybitApplyChange m p 0 = Except.error BookError.keyError
    ∧ serumApplyChange (mapSet m p v) p 0 = mapDelTotal (mapSet m p v) p
    ∧ bybitApplyChange (mapSet m p v) p 0 = Except.ok (mapDelTotal (mapSet m p v) p)
    ∧ mapLookup (mapDelTotal (mapSet m p v) p) p = Option.none
    ∧ serumApplyChange m p v = mapSet m p v
    ∧ bybitApplyChange m p v = Except.ok (mapSet m p v) := by
  have hnm : mapMem m p = false := by simp [mapMem, habs]
  have hym : mapMem (mapSet m p v) p = true := mapMem_mapSet m p v
  refine ⟨?_, ?_, ?_, ?_, mapLookup_mapDelTotal_mapSet m p v habs, ?_, ?_⟩
  · simp [serumApplyChange, hnm]
  · simp [bybitApplyChange, hnm]
  · simp [serumApplyChange, hym]
  · simp [bybitApplyChange, hym]
  · simp [serumApplyChange, hv]
  · simp [bybitApplyChange, hv]

/-- Claim C6 witness: concrete instance over the one-level map `[(2, 5)]`,
absent price 1, nonzero size 3. -/
theorem delta_zero_removes_nonzero_upserts_w :
    mapLookup w6m 1 = Option.none ∧ (3 : ℚ) ≠ 0
    ∧ (serumApplyChange w6m 1 0 = w6m
       ∧ bybitApplyChange w6m 1 0 = Except.error BookError.keyError
       ∧ serumApplyChange (mapSet w6m 1 3) 1 0 = mapDelTotal (mapSet w6m 1 3) 1
       ∧ bybitApplyChange (mapSet w6m 1 3) 1 0 = Except.ok (mapDelTotal (mapSet w6m 1 3) 1)
       ∧ mapLookup (mapDelTotal (mapSet w6m 1 3) 1) 1 = Option.none
       ∧ serumApplyChange w6m 1 3 = mapSet w6m 1 3
       ∧ bybitApplyChange w6m 1 3 = Except.ok (mapSet w6m 1 3)) :=
  ⟨by decide, by decide, delta_zero_removes_nonzero_upserts w6m 1 3 (by decide) (by decide)⟩

/-- Claim C7 (corrected).  Amended claim: the persisted view of one book side
is not variable-length — it always carries exactly `max_depth` level slots,
the first `length view` of them holding the real levels and every remaining
slot holding fabricated `float('nan')` filler cells (parquet.py lines
109-112). -/
theorem levels_fixed_length_nan_padding (view : List (ℚ × ℚ)) (maxDepth : ℕ)
    (h : view.length ≤ maxDepth) :
    (levelCells view maxDepth).length = maxDepth
    ∧ levelCells view maxDepth
      = view.map (fun pl => (FCell.num pl.1, FCell.num pl.2))
        ++ List.replicate (maxDepth - view.length) (FCell.nan, FCell.nan) := by
  have ht : view.take maxDepth = view := List.take_of_length_le h
  constructor
  · simp only [levelCells, ht, List.length_append, List.length_map, List.length_replicate]
    omega
  · rw [levelCells, ht]

/-- Claim C7 witness: one real bid level under `max_depth = 2` yields a
two-slot record ending in a nan filler pair. -/
theorem levels_fixed_length_nan_padding_w :
    ([((100 : ℚ), (1 : ℚ))] : List (ℚ × ℚ)).length ≤ 2
    ∧ ((levelCells [((100 : ℚ), (1 : ℚ))] 2).length = 2
       ∧ levelCells [((100 : ℚ), (1 : ℚ))] 2
         = ([((100 : ℚ), (1 : ℚ))] : List (ℚ × ℚ)).map
             (fun pl => (FCell.num pl.1, FCell.num pl.2))
           ++ List.replicate (2 - ([((100 : ℚ), (1 : ℚ))] : List (ℚ × ℚ)).length)
               (FCell.nan, FCell.nan)) :=
  ⟨by decide, levels_fixed_length_nan_padding [((100 : ℚ), (1 : ℚ))] 2 (by decide)⟩

/-- Claim C8 (corrected).  Amended claim: the generic callback path
(`_format_timestamps`, used by the trade/funding/candle-style sinks) does
store the venue timestamp as integer nanoseconds with `None` for a missing
timestamp, exactly as the spec-worded nullable encoding; but the book and
book-delta sinks collapse a missing (or zero) venue timestamp to the integer
sentinel 0 — their stored field equals the nullable encoding with null
defaulted to 0. -/
theorem timestamp_formatting_spec (t : Option ℚ) :
    formatVenueTimestamp t = specNullableTimestamp t
    ∧ bookVenueTimestamp t = (specNullableTimestamp t).getD 0 := by
  cases t with
  | none => exact ⟨rfl, rfl⟩
  | some q =>
    refine ⟨by simp [formatVenueTimestamp, specNullableTimestamp], ?_⟩
    by_cases h : q = 0
    · subst h
      show (0 : ℤ) = (Option.getD (Option.some (pyInt (0 * 1000000000))) 0)
      norm_num [pyInt]
    · simp [bookVenueTimestamp, specNullableTimestamp, h]

/-- Claim C9 (corrected).  Amended claim: the inference tries integer, then
(for strings of length at least 8 that parse as hexadecimal) fixed-width
binary, then floating point, then boolean, else string, and an unclassifiable
value (such as `None`) is a fatal error; with the binary case inserted, the
source inference agrees with the amended wording on every value. -/
theorem infer_type_matches_amended_spec (v : PyVal) :
    inferType v = specInferTypeAmended v := by
  cases v <;> rfl

/-- Claim C10 (corrected).  Amended claim: a previously postponed book event
is not simply discarded on replacement — whenever the next event arrives more
than half the snapshot interval after the postponed event's receipt
timestamp, the postponed event is first enqueued (persisted); only the
`_last_receipt_timestamp` attribute (a write-only attribute distinct from the
`last_receipt_timestamp` the interval checks read) is updated to its receipt
time. -/
theorem postponed_flush_enqueues (st : BookParquetState) (b : BookInput)
    (recSeconds : ℚ) (lp : BookRow) (hp : st.last_postponed = Option.some lp)
    (hgap : ((pyInt (recSeconds * 1000000000) - lp.receipt_timestamp : ℤ) : ℚ)
      > st.snapshotIntervalNs / 2) :
    lp ∈ (bookCall st b recSeconds).queue
    ∧ (bookCall st b recSeconds).priv_last_receipt_timestamp = lp.receipt_timestamp := by
  unfold bookCall
  rw [hp]
  dsimp only
  rw [if_pos hgap]
  split
  · constructor
    · simp [List.mem_append]
    · rfl
  · split
    · constructor
      · simp [List.mem_append]
      · rfl
    · constructor
      · simp [List.mem_append]
      · rfl

/-- Claim C10 witness: in the concrete three-event run, the event postponed at
1.03 s is enqueued when the 1.09 s event arrives 0.06 s (more than half the
0.1 s interval) later. -/
theorem postponed_flush_enqueues_w :
    c10AfterTwo.last_postponed = Option.some c10PostponedRow
    ∧ ((pyInt ((109 / 100 : ℚ) * 1000000000) - c10PostponedRow.receipt_timestamp : ℤ) : ℚ)
        > c10AfterTwo.snapshotIntervalNs / 2
    ∧ (c10PostponedRow ∈ (bookCall c10AfterTwo c10Book (109 / 100)).queue
       ∧ (bookCall c10AfterTwo c10Book (109 / 100)).priv_last_receipt_timestamp
         = c10PostponedRow.receipt_timestamp) :=
  ⟨by decide, by decide,
    postponed_flush_enqueues c10AfterTwo c10Book (109 / 100) c10PostponedRow
      (by decide) (by decide)⟩
